import Mathlib

/-!
Verification of the screener data pipeline (dones97/screener).

We shallowly embed the metric-derivation and percentile-cutoff engine:

* `calculate_cagr`, `calculate_avg_margin`, `extract_financials`
  (src/data_pipeline/metrics_ingestion_batch.py),
* the batch-test extractor variant
  (src/data_pipeline/metrics_ingestion_batch_test.py),
* `calculate_avg_roce` (src/data_pipeline/metrics_utils.py),
* the CAGR half of `compute_metrics` (src/data pipeline/metrics_ingestion.py),
* the industry-percentile aggregator of `main`
  (src/data_pipeline/metrics_ingestion_batch.py) and the one of
  src/data_pipeline/gen_cutoffs_table.py,
* `get_cutoff` / `filter_stocks` (src/app/streamlit_app.py).

Modelling conventions: a pandas Series of statement values becomes a list of
(date, value) pairs; a missing (NaN) cell is `none`.  Table cell values read
from or written to the CSV tables are modelled as rationals; CAGR values,
which involve a real n-th root, live in `ℝ`.  A Python `None` / pandas `NaN`
result is `Option.none`.  A ratio whose denominator is zero is non-finite in
pandas (`inf` or `NaN`) and is dropped by the subsequent
`.replace([inf,-inf], nan).dropna()`; we model that combination by dropping
zero-denominator ratios directly.
-/

namespace Screener

/-- A period-end date (annual statement column label). -/
abbrev Date := Int

/-- A statement row as stored in a frame: sparse, cells may be NaN (`none`). -/
abbrev RawSeries := List (Date × Option ℚ)

/-- A statement row after `.dropna()`: every retained cell has a value. -/
abbrev FinSeries := List (Date × ℚ)

/-- A financial-statement table (`t.financials`, `t.cashflow`,
`t.balance_sheet`): row label to row. -/
abbrev Frame := List (String × RawSeries)

/-- `name in frame.index`. -/
def Frame.hasRow (f : Frame) (name : String) : Bool :=
  f.any (fun r => r.1 == name)

/-- `frame.loc[name]`: `none` models the `KeyError` raised on a missing row. -/
def Frame.loc (f : Frame) (name : String) : Option RawSeries :=
  (f.find? (fun r => r.1 == name)).map (fun r => r.2)

/-- `frame.loc[name]` where the row is known to exist (defaults to empty). -/
def Frame.locD (f : Frame) (name : String) : RawSeries :=
  (f.loc name).getD []

/-- `series.dropna()`. -/
def dropna (s : RawSeries) : FinSeries :=
  s.filterMap (fun p => p.2.map (fun v => (p.1, v)))

/-- `series.sort_index()` on a dropna'd series (stable sort by date). -/
def sortByDate (s : FinSeries) : FinSeries :=
  List.insertionSort (fun a b => a.1 ≤ b.1) s

/-- `series.sort_index()` on a series that may still hold NaN cells. -/
def sortByDateO (s : RawSeries) : RawSeries :=
  List.insertionSort (fun a b => a.1 ≤ b.1) s

/-- `series.tail(n)`: the trailing `n` entries. -/
def tail_n (n : ℕ) (l : List α) : List α :=
  l.drop (l.length - n)

/-- The values of a series, in date order. -/
def values (s : FinSeries) : List ℚ :=
  s.map (fun p => p.2)

/-- Value at a given date, if present (index lookup). -/
def lookupDate (s : FinSeries) (d : Date) : Option ℚ :=
  (s.find? (fun p => p.1 == d)).map (fun p => p.2)

/-- Value at a given date in a raw series, if present and not NaN. -/
def lookupDateO (s : RawSeries) (d : Date) : Option ℚ :=
  (s.find? (fun p => p.1 == d)).bind (fun p => p.2)

/-- Arithmetic mean of a list of rationals (`series.mean()`). -/
def meanQ (l : List ℚ) : ℚ :=
  l.sum / l.length

/-!  ## calculate_cagr (src/data_pipeline/metrics_ingestion_batch.py:48-55)

```python
def calculate_cagr(series):
    if len(series) < 2 or series.iloc[0] == 0 or any(series <= 0):
        return None
    n = len(series) - 1
    try:
        return (series.iloc[-1] / series.iloc[0]) ** (1 / n) - 1
    except Exception:
        return None
```
The guard ensures every value is strictly positive, so the exponentiation
cannot raise; floats are modelled as reals.  The identical function also
appears in src/data_pipeline/metrics_ingestion_batch_test.py:42-49. -/

noncomputable def calculate_cagr (s : List ℚ) : Option ℝ :=
  if s.length < 2 ∨ s.headI = 0 ∨ ∃ x ∈ s, x ≤ 0 then none
  else
    some ((((s.getLastD 0 : ℚ) : ℝ) / ((s.headI : ℚ) : ℝ))
            ^ ((1 : ℝ) / ((s.length - 1 : ℕ) : ℝ)) - 1)

/-!  ## pandas `Series.quantile(q)` with linear interpolation

For a nonempty series of `n` values sorted ascending, the quantile sits at
position `q * (n - 1)`; with `i = ⌊pos⌋` and `g = pos - i` the result is
`v[i] + g * (v[i+1] - v[i])`.  On an empty series pandas returns NaN. -/

def quantileSorted (s : List ℚ) (q : ℚ) : Option ℚ :=
  if s.isEmpty then none
  else
    let n : ℕ := s.length
    let pos : ℚ := q * ((n : ℚ) - 1)
    let i : ℕ := (Int.toNat ⌊pos⌋)
    let lo : ℚ := s.getD i 0
    let hi : ℚ := s.getD (i + 1) lo
    some (lo + (pos - (i : ℚ)) * (hi - lo))

def quantile (l : List ℚ) (q : ℚ) : Option ℚ :=
  quantileSorted (List.insertionSort (fun a b => a ≤ b) l) q

/-!  ## calculate_avg_margin (src/data_pipeline/metrics_ingestion_batch.py:58-66)

```python
def calculate_avg_margin(net_income, revenue):
    npm = (net_income / revenue).replace([np.inf, -np.inf], np.nan)
    npm = npm.infer_objects(copy=False).dropna()
    if len(npm) == 0:
        return None
    return npm.mean()
```
Pandas divides after aligning both series on the union of their dates; a
ratio is NaN at any date missing from either side, `±inf`/NaN at a zero
denominator, and all of those are dropped before the mean.  The surviving
ratios are exactly the ratios at the numerator dates that also carry a
nonzero denominator value (statement series have unique dates). -/

def alignedRatios (num den : FinSeries) : List ℚ :=
  num.filterMap (fun p =>
    match lookupDate den p.1 with
    | some r => if r = 0 then none else some (p.2 / r)
    | none => none)

def calculate_avg_margin (net_income revenue : FinSeries) : Option ℚ :=
  let npm := alignedRatios net_income revenue
  if npm.length = 0 then none else some (meanQ npm)

/-!  ## calculate_avg_roce (src/data_pipeline/metrics_utils.py:3-46)

```python
def calculate_avg_roce(fin, bal, min_years=4):
    ebit = None
    for name in ["EBIT", "Operating Income"]:
        if name in fin.index:
            ebit = fin.loc[name].sort_index(); break
    if "Total Assets" in bal.index and "Total Current Liabilities" in bal.index:
        total_assets = bal.loc["Total Assets"].sort_index()
        current_liabilities = bal.loc["Total Current Liabilities"].sort_index()
        capital_employed = total_assets - current_liabilities
    else:
        return None
    if ebit is None or len(ebit.dropna()) < min_years or len(capital_employed.dropna()) < min_years:
        return None
    ebit = ebit.dropna().tail(min_years)
    capital_employed = capital_employed.dropna().reindex(ebit.index)
    roce_series = (ebit / capital_employed).replace([np.inf, -np.inf], np.nan).dropna()
    if len(roce_series) == 0:
        return None
    return roce_series.mean()
```
`total_assets - current_liabilities` aligns on the union of dates and is NaN
wherever either side is missing. -/

/-- Pandas `a - b` on two series: union of dates, NaN unless both defined. -/
def seriesSub (a b : RawSeries) : RawSeries :=
  ((a.map (fun p => p.1) ++ b.map (fun p => p.1)).dedup).map (fun d =>
    (d, match lookupDateO a d, lookupDateO b d with
        | some x, some y => some (x - y)
        | _, _ => none))

/-- The EBIT row chosen by `calculate_avg_roce` (first matching label,
sorted by date), or the empty series if neither label is present. -/
def ebitSeries (fin : Frame) : RawSeries :=
  match (["EBIT", "Operating Income"].find? (fun n => fin.hasRow n)) with
  | some n => sortByDateO (fin.locD n)
  | none => []

/-- Capital employed = total assets − total current liabilities, as the code
computes it (empty when a balance-sheet row is missing entirely). -/
def ceSeries (bal : Frame) : RawSeries :=
  seriesSub (sortByDateO (bal.locD "Total Assets"))
    (sortByDateO (bal.locD "Total Current Liabilities"))

/-- The per-period ROCE ratios that survive alignment: trailing `min_years`
defined EBIT points, each divided by the capital employed defined at the
same date, with non-finite (zero-denominator or unmatched) ratios dropped. -/
def roceRatios (fin bal : Frame) (min_years : ℕ) : List ℚ :=
  (tail_n min_years (dropna (ebitSeries fin))).filterMap (fun p =>
    match lookupDate (dropna (ceSeries bal)) p.1 with
    | some c => if c = 0 then none else some (p.2 / c)
    | none => none)

def calculate_avg_roce (fin bal : Frame) (min_years : ℕ) : Option ℚ :=
  if bal.hasRow "Total Assets" && bal.hasRow "Total Current Liabilities" then
    match (["EBIT", "Operating Income"].find? (fun n => fin.hasRow n)) with
    | none => none
    | some n =>
      let ebit := sortByDateO (fin.locD n)
      let capital_employed :=
        seriesSub (sortByDateO (bal.locD "Total Assets"))
          (sortByDateO (bal.locD "Total Current Liabilities"))
      if (dropna ebit).length < min_years ∨
          (dropna capital_employed).length < min_years then none
      else
        let e := tail_n min_years (dropna ebit)
        let roce := e.filterMap (fun p =>
          match lookupDate (dropna capital_employed) p.1 with
          | some c => if c = 0 then none else some (p.2 / c)
          | none => none)
        if roce.length = 0 then none else some (meanQ roce)
  else none

/-!  ## extract_financials (src/data_pipeline/metrics_ingestion_batch.py:72-134)

The function builds a dict `out` with `ticker`, `industry`
(`safe_get(info, "industry")`), the five screening metrics, and display
metrics.  The screening-metric block is wrapped in `try/except`: the only
raising statements are the two unguarded `fin.loc[...]` lookups (the revenue
row — "Total Revenue", falling back to "Revenue" — and "Net Income"), which
raise `KeyError` when the row is absent; on exception every screening metric
is set to `None`.  We model the dict as the ordered association list of the
screening-metric entries plus the ticker/industry fields (the display
metrics are copied verbatim from the provider record and are not part of any
claim). -/

def SCREEN_METRICS : List String :=
  ["revenue_cagr", "net_income_cagr", "eps_cagr", "net_profit_margin_avg",
   "operating_cashflow_cagr"]

def revRowName (fin : Frame) : String :=
  if fin.hasRow "Total Revenue" then "Total Revenue" else "Revenue"

def epsRowName (fin : Frame) : String :=
  if fin.hasRow "Diluted EPS" then "Diluted EPS" else "Basic EPS"

/-- `eps = fin.loc[eps_row].dropna().sort_index() if eps_row in fin.index
else None`. -/
def epsSeriesOpt (fin : Frame) : Option FinSeries :=
  if fin.hasRow (epsRowName fin) then
    (fin.loc (epsRowName fin)).map (fun r => sortByDate (dropna r))
  else none

/-- `ocf = cf.loc[ocf_row].dropna().sort_index() if ocf_row in cf.index
else None`. -/
def ocfSeriesOpt (cf : Frame) : Option FinSeries :=
  if cf.hasRow "Total Cash From Operating Activities" then
    (cf.loc "Total Cash From Operating Activities").map
      (fun r => sortByDate (dropna r))
  else none

/-- `calculate_cagr(series.tail(min_years+1)) if series is not None and
len(series) >= min_years + 1 else None`. -/
noncomputable def cagrEntry (s : Option FinSeries) (min_years : ℕ) : Option ℝ :=
  match s with
  | some e =>
    if min_years + 1 ≤ e.length then
      calculate_cagr (values (tail_n (min_years + 1) e))
    else none
  | none => none

/-- The `try:` block of `extract_financials`: `none` models an exception
(a `KeyError` from `fin.loc` on a missing revenue or net-income row);
otherwise the five screening-metric entries, in assignment order. -/
noncomputable def tryScreen (fin cf : Frame) (min_years : ℕ) :
    Option (List (String × Option ℝ)) :=
  match fin.loc (revRowName fin), fin.loc "Net Income" with
  | some revRaw, some niRaw =>
    let revenue := sortByDate (dropna revRaw)
    let net_income := sortByDate (dropna niRaw)
    some [
      ("revenue_cagr", cagrEntry (some revenue) min_years),
      ("net_income_cagr", cagrEntry (some net_income) min_years),
      ("eps_cagr", cagrEntry (epsSeriesOpt fin) min_years),
      ("net_profit_margin_avg",
        if min_years ≤ net_income.length ∧ min_years ≤ revenue.length then
          (calculate_avg_margin (tail_n min_years net_income)
            (tail_n min_years revenue)).map (fun q => (q : ℝ))
        else none),
      ("operating_cashflow_cagr", cagrEntry (ocfSeriesOpt cf) min_years)]
  | _, _ => none

/-- The metric record returned for one ticker. -/
structure ExtractOut where
  ticker : String
  industry : Option String
  screen : List (String × Option ℝ)

noncomputable def extract_financials (fin cf : Frame) (industry : Option String)
    (ticker : String) (min_years : ℕ) : ExtractOut :=
  { ticker := ticker
    industry := industry
    screen :=
      match tryScreen fin cf min_years with
      | some l => l
      | none => SCREEN_METRICS.map (fun m => (m, none)) }

/-!  ## The batch-test extractor variant
(src/data_pipeline/metrics_ingestion_batch_test.py:36-80)

```python
def get_fin_row(fin, names):
    for name in names:
        if name in fin.index:
            return fin.loc[name].dropna().sort_index()
    return pd.Series(dtype=float)
...
# Screening metrics using min_years (not min_years+1)
out["revenue_cagr"] = calculate_cagr(revenue.tail(min_years)) if len(revenue) >= min_years else None
...
```
This variant thresholds every metric — the CAGRs included — at `min_years`
trailing points. -/

def get_fin_row (f : Frame) (names : List String) : FinSeries :=
  match names.find? (fun n => f.hasRow n) with
  | some n => sortByDate (dropna (f.locD n))
  | none => []

noncomputable def extract_financials_test (fin cf : Frame)
    (industry : Option String) (ticker : String) (min_years : ℕ) : ExtractOut :=
  let revenue := get_fin_row fin ["Total Revenue", "Revenue"]
  let net_income := get_fin_row fin ["Net Income", "NetIncome"]
  let eps := get_fin_row fin ["Diluted EPS", "EPS", "Basic EPS"]
  let ocf := get_fin_row cf
    ["Total Cash From Operating Activities", "Operating Cash Flow"]
  { ticker := ticker
    industry := industry
    screen := [
      ("revenue_cagr",
        if min_years ≤ revenue.length then
          calculate_cagr (values (tail_n min_years revenue))
        else none),
      ("net_income_cagr",
        if min_years ≤ net_income.length then
          calculate_cagr (values (tail_n min_years net_income))
        else none),
      ("eps_cagr",
        if min_years ≤ eps.length then
          calculate_cagr (values (tail_n min_years eps))
        else none),
      ("net_profit_margin_avg",
        if min_years ≤ net_income.length ∧ min_years ≤ revenue.length then
          (calculate_avg_margin (tail_n min_years net_income)
            (tail_n min_years revenue)).map (fun q => (q : ℝ))
        else none),
      ("operating_cashflow_cagr",
        if min_years ≤ ocf.length then
          calculate_cagr (values (tail_n min_years ocf))
        else none)] }

/-!  ## compute_metrics, CAGR half (src/data pipeline/metrics_ingestion.py:54-70)

```python
def compute_metrics(fin_df):
    rev_field = "Total Revenue" if "Total Revenue" in fin_df.index else "Revenue"
    ni_field = "Net Income"
    if rev_field not in fin_df.index or ni_field not in fin_df.index:
        return None, None
    rev = fin_df.loc[rev_field].dropna()
    ni  = fin_df.loc[ni_field].dropna()
    if len(rev) < 2:
        return None, None
    rev = rev.sort_index()
    n_periods = len(rev) - 1
    cagr = (rev.iloc[-1] / rev.iloc[0]) ** (1/n_periods) - 1
    npm = (ni.reindex(rev.index) / rev).dropna().mean()
    return cagr, npm
```
There is no positivity or zero check at all: the CAGR is exponentiated
directly from `last/first`.  We model the CAGR component (the NPM component
is independent of every claim; note it is not wrapped in any guard either).
The claims only evaluate this function at series whose first value is
strictly positive, where real exponentiation models the float one. -/

noncomputable def compute_metrics_cagr (fin : Frame) : Option ℝ :=
  let rev_field := if fin.hasRow "Total Revenue" then "Total Revenue" else "Revenue"
  if !(fin.hasRow rev_field && fin.hasRow "Net Income") then none
  else
    let rev := dropna (fin.locD rev_field)
    if rev.length < 2 then none
    else
      let revS := sortByDate rev
      some (((((values revS).getLastD 0 : ℚ) : ℝ) / (((values revS).headI : ℚ) : ℝ))
              ^ ((1 : ℝ) / ((revS.length - 1 : ℕ) : ℝ)) - 1)

/-!  ## The metrics table and the two cutoff aggregators

A metrics-table row as persisted to `metrics_table.csv`: ticker, industry
(empty cell = `none`) and the five screening-metric cells.  The display
columns play no role in aggregation or filtering on metrics. -/

/-- A screened metric (column selector). -/
inductive SMetric where
  | revenue_cagr
  | net_income_cagr
  | eps_cagr
  | net_profit_margin_avg
  | operating_cashflow_cagr
deriving DecidableEq, Inhabited

structure MetricsRow where
  ticker : String
  industry : Option String
  revenue_cagr : Option ℚ
  net_income_cagr : Option ℚ
  eps_cagr : Option ℚ
  net_profit_margin_avg : Option ℚ
  operating_cashflow_cagr : Option ℚ
deriving DecidableEq, Inhabited

def MetricsRow.cell (r : MetricsRow) : SMetric → Option ℚ
  | .revenue_cagr => r.revenue_cagr
  | .net_income_cagr => r.net_income_cagr
  | .eps_cagr => r.eps_cagr
  | .net_profit_margin_avg => r.net_profit_margin_avg
  | .operating_cashflow_cagr => r.operating_cashflow_cagr

/-- A row of `cutoffs_table.csv` as written by the batch pipeline. -/
structure BCutoffRow where
  industry : String
  percentile : ℕ
  revenue_cagr : Option ℚ
  net_income_cagr : Option ℚ
  eps_cagr : Option ℚ
  net_profit_margin_avg : Option ℚ
  operating_cashflow_cagr : Option ℚ
deriving DecidableEq, Inhabited

def BCutoffRow.cell (r : BCutoffRow) : SMetric → Option ℚ
  | .revenue_cagr => r.revenue_cagr
  | .net_income_cagr => r.net_income_cagr
  | .eps_cagr => r.eps_cagr
  | .net_profit_margin_avg => r.net_profit_margin_avg
  | .operating_cashflow_cagr => r.operating_cashflow_cagr

/-- The distinct industries of the table, as `groupby("industry")` groups
them: rows whose industry cell is NaN belong to no group.  (Pandas also
sorts the group keys; only the order of emitted rows depends on that, and no
claim concerns row order, so we keep deduplicated encounter order.) -/
def industriesOf (t : List MetricsRow) : List String :=
  (t.filterMap (fun r => r.industry)).dedup

/-- The industry's partition of the table (`groupby` group). -/
def partitionOf (t : List MetricsRow) (I : String) : List MetricsRow :=
  t.filter (fun r => r.industry == some I)

/-- `pct_list` of src/data_pipeline/metrics_ingestion_batch.py:178. -/
def PCT_LIST : List ℕ := [1, 5, 10, 20, 25, 50]

/-- `pct / 100.0`. -/
def pctq (p : ℕ) : ℚ := (p : ℚ) / 100

/-!  ## Batch aggregator (src/data_pipeline/metrics_ingestion_batch.py:177-195)

```python
pct_list = [1, 5, 10, 20, 25, 50]
for industry, group in metrics_df.groupby("industry"):
    for pct in pct_list:
        values = {}
        for metric in SCREEN_METRICS:
            try:
                values[metric] = group[metric].dropna().quantile(pct / 100.0)
            except Exception:
                values[metric] = None
        pct_records.append(dict(industry=industry, percentile=pct, **values))
```
`Series.quantile` of an empty (all-NaN, dropped) column returns NaN rather
than raising, which `quantile [] _ = none` models. -/

def batchCutoffRow (g : List MetricsRow) (I : String) (p : ℕ) : BCutoffRow :=
  { industry := I
    percentile := p
    revenue_cagr := quantile (g.filterMap (fun r => r.revenue_cagr)) (pctq p)
    net_income_cagr := quantile (g.filterMap (fun r => r.net_income_cagr)) (pctq p)
    eps_cagr := quantile (g.filterMap (fun r => r.eps_cagr)) (pctq p)
    net_profit_margin_avg :=
      quantile (g.filterMap (fun r => r.net_profit_margin_avg)) (pctq p)
    operating_cashflow_cagr :=
      quantile (g.filterMap (fun r => r.operating_cashflow_cagr)) (pctq p) }

def batchCutoffs (t : List MetricsRow) : List BCutoffRow :=
  (industriesOf t).flatMap (fun I =>
    PCT_LIST.map (fun p => batchCutoffRow (partitionOf t I) I p))

/-!  ## gen_cutoffs_table.py aggregator (src/data_pipeline/gen_cutoffs_table.py:9-27)

```python
PERCENTILES = [1, 5, 10]
METRICS = ["revenue_cagr", "net_profit_margin_avg"]
df = df.dropna(subset=["industry"] + METRICS)
for industry, grp in df.groupby("industry"):
    for p in PERCENTILES:
        cut = {"industry": industry, "percentile": p}
        for metric in METRICS:
            val = grp[metric].quantile(1 - p / 100.0)
            cut[metric] = val
        cutoff_rows.append(cut)
```
Note the two divergences from the batch aggregator: rows missing the
industry *or either screened metric* are discarded up front, and the
quantile direction is flipped to `1 - p/100`. -/

structure GCutoffRow where
  industry : String
  percentile : ℕ
  revenue_cagr : Option ℚ
  net_profit_margin_avg : Option ℚ
deriving DecidableEq, Inhabited

def GEN_PERCENTILES : List ℕ := [1, 5, 10]

/-- The `dropna(subset=["industry"] + METRICS)` row predicate. -/
def genKeep (r : MetricsRow) : Bool :=
  r.industry.isSome && r.revenue_cagr.isSome && r.net_profit_margin_avg.isSome

def genCutoffRow (g : List MetricsRow) (I : String) (p : ℕ) : GCutoffRow :=
  { industry := I
    percentile := p
    revenue_cagr :=
      quantile (g.filterMap (fun r => r.revenue_cagr)) (1 - pctq p)
    net_profit_margin_avg :=
      quantile (g.filterMap (fun r => r.net_profit_margin_avg)) (1 - pctq p) }

def genCutoffs (t : List MetricsRow) : List GCutoffRow :=
  let df := t.filter genKeep
  (industriesOf df).flatMap (fun I =>
    GEN_PERCENTILES.map (fun p => genCutoffRow (partitionOf df I) I p))

/-!  ## The app's filter (src/app/streamlit_app.py:82-118)

```python
def get_cutoff(ind, metric, pct):
    row = cutoffs[(cutoffs['industry'] == ind) & (cutoffs['percentile'] == pct)]
    if not row.empty:
        return float(row.iloc[0][metric])
    else:
        return None

def filter_stocks(df, cutoffs, industries, use_rev_cagr, rev_cagr_p, use_npm, npm_p, mc_range):
    df = df[df['industry'].isin(industries)]
    if use_rev_cagr:
        df['rev_cagr_cutoff'] = ... get_cutoff(row['industry'], 'revenue_cagr', rev_cagr_p) ...
    if use_npm:
        df['npm_cutoff'] = ... get_cutoff(row['industry'], 'net_profit_margin_avg', npm_p) ...
    filter_cond = pd.Series(True, index=df.index)
    if use_rev_cagr:
        filter_cond = filter_cond & (df['revenue_cagr'] >= df['rev_cagr_cutoff'])
    if use_npm:
        filter_cond = filter_cond & (df['net_profit_margin_avg'] >= df['npm_cutoff'])
    df = df[filter_cond]
    df = df[(df['market_cap'] >= mc_range[0]) & (df['market_cap'] <= mc_range[1])]
    return df
```
In pandas any comparison against NaN (an undefined metric value, a NaN
cutoff cell, or a missing cutoff row propagated as NaN into the cutoff
column) is False. -/

/-- The metrics-table columns `filter_stocks` reads. -/
structure AppRow where
  ticker : String
  industry : Option String
  revenue_cagr : Option ℚ
  net_profit_margin_avg : Option ℚ
  market_cap : Option ℚ
deriving DecidableEq, Inhabited

def AppRow.mcell (r : AppRow) : SMetric → Option ℚ
  | .revenue_cagr => r.revenue_cagr
  | _ => r.net_profit_margin_avg

def get_cutoff (cutoffs : List BCutoffRow) (ind : Option String) (m : SMetric)
    (pct : ℕ) : Option ℚ :=
  match ind with
  | some i =>
    (cutoffs.find? (fun c => c.industry == i && c.percentile == pct)).bind
      (fun c => c.cell m)
  | none => none

/-- `value >= cutoff` under pandas NaN semantics: False unless both defined. -/
def passGE (v c : Option ℚ) : Bool :=
  match v, c with
  | some v, some c => decide (c ≤ v)
  | _, _ => false

/-- The market-cap range test, NaN never passing. -/
def inRange (mc : Option ℚ) (lo hi : ℚ) : Bool :=
  match mc with
  | some x => decide (lo ≤ x) && decide (x ≤ hi)
  | none => false

def filter_stocks (df : List AppRow) (cutoffs : List BCutoffRow)
    (industries : List String) (use_rev_cagr : Bool) (rev_cagr_p : ℕ)
    (use_npm : Bool) (npm_p : ℕ) (lo hi : ℚ) : List AppRow :=
  (((df.filter (fun r =>
      match r.industry with
      | some i => industries.contains i
      | none => false)).filter (fun r =>
        (!use_rev_cagr ||
          passGE r.revenue_cagr
            (get_cutoff cutoffs r.industry .revenue_cagr rev_cagr_p)) &&
        (!use_npm ||
          passGE r.net_profit_margin_avg
            (get_cutoff cutoffs r.industry .net_profit_margin_avg npm_p)))).filter
    (fun r => inRange r.market_cap lo hi))

/-!  ## Concrete instances used by witnesses and counterexamples -/

/-- A financials frame whose revenue series is the spec's own CAGR example
[100, -5, 120] (sorted by date into exactly that order). -/
def finC3 : Frame :=
  [("Total Revenue", [(1, some 100), (2, some (-5)), (3, some 120)]),
   ("Net Income", [(1, some 10), (2, some 10), (3, some 10)])]

/-- A financials frame whose revenue series has exactly 4 strictly positive
points. -/
def finC5 : Frame :=
  [("Total Revenue", [(1, some 1), (2, some 2), (3, some 4), (4, some 8)])]

/-- A financials frame with too few revenue and net-income points for
`min_years = 4`. -/
def finC5W : Frame :=
  [("Total Revenue", [(1, some 1), (2, some 2)]),
   ("Net Income", [(1, some 1)])]

/-- Example numerator: net income 10, 20, 30 at three consecutive dates. -/
def niW : FinSeries := [(1, 10), (2, 20), (3, 30)]

/-- Example denominator: revenue 100 at the same three dates. -/
def revW : FinSeries := [(1, 100), (2, 100), (3, 100)]

/-- EBIT 10 then 20 over two periods. -/
def finC7 : Frame := [("EBIT", [(1, some 10), (2, some 20)])]

/-- Balance sheet giving capital employed 100 at both periods. -/
def balC7 : Frame :=
  [("Total Assets", [(1, some 110), (2, some 120)]),
   ("Total Current Liabilities", [(1, some 10), (2, some 20)])]

/-- The spec's end-to-end example table: two Software tickers with revenue
CAGR 0.10 and 0.30, one Retail ticker with 0.05. -/
def tEx : List MetricsRow :=
  [⟨"SW1", some "Software", some (1/10), none, none, none, none⟩,
   ⟨"SW2", some "Software", some (3/10), none, none, none, none⟩,
   ⟨"RT1", some "Retail", some (5/100), none, none, none, none⟩]

/-- Two industry-A records with revenue CAGR and margin values 0 and 1. -/
def tC1 : List MetricsRow :=
  [⟨"A1", some "A", some 0, none, none, some 0, none⟩,
   ⟨"A2", some "A", some 1, none, none, some 1, none⟩]

/-- One industry-A record whose revenue CAGR is undefined. -/
def tC4 : List MetricsRow :=
  [⟨"T1", some "A", none, none, none, some (1/2), none⟩]

/-- A one-record Software table. -/
def t1C8 : List MetricsRow :=
  [⟨"SW1", some "Software", some (1/10), none, none, some (1/10), none⟩]

/-- The same Software record plus an unrelated record in another industry. -/
def t2C8 : List MetricsRow :=
  [⟨"SW1", some "Software", some (1/10), none, none, some (1/10), none⟩,
   ⟨"X1", some "Other", some 7, some 7, some 7, some 7, some 7⟩]

/-- A metrics row that beats its industry's cutoffs. -/
def rowC9 : AppRow := ⟨"T", some "A", some (3/10), some (1/5), some 500⟩

/-- The same row with an undefined revenue CAGR. -/
def rowC9U : AppRow := ⟨"U", some "A", none, some (1/5), some 500⟩

/-- A cutoffs table with one industry-A row at the 5th percentile. -/
def cutC9 : List BCutoffRow :=
  [⟨"A", 5, some (1/10), none, none, some (1/10), none⟩]

/-!  ## Helper lemmas -/

theorem headI_mem {α : Type} [Inhabited α] {l : List α} (h : l ≠ []) :
    l.headI ∈ l := by
  cases l with
  | nil => exact absurd rfl h
  | cons a t => exact List.mem_cons_self a t

theorem tail_n_length {α : Type} (n : ℕ) (l : List α) (h : n ≤ l.length) :
    (tail_n n l).length = n := by
  simp only [tail_n, List.length_drop]
  omega

theorem tail_n_subset {α : Type} (n : ℕ) (l : List α) : tail_n n l ⊆ l :=
  List.drop_subset _ _

theorem quantile_nil (q : ℚ) : quantile [] q = none := rfl

theorem batchCutoffRow_cell (g : List MetricsRow) (I : String) (p : ℕ)
    (m : SMetric) :
    (batchCutoffRow g I p).cell m =
      quantile (g.filterMap (fun r => r.cell m)) (pctq p) := by
  cases m <;> rfl

theorem mem_industriesOf (t : List MetricsRow) (I : String) :
    I ∈ industriesOf t ↔ ∃ r ∈ t, r.industry = some I := by
  simp [industriesOf, List.mem_dedup, List.mem_filterMap]

/-!  ## C2 -/

/-- C2: for every series of at least `min_years + 1` strictly positive
values, the CAGR computed by `calculate_cagr` on the trailing
`min_years + 1` window (as `extract_financials` invokes it) is exactly
`(last/first) ^ (1/n) - 1`, where `n = min_years` is the number of points
in the trailing window minus one. -/
theorem c2_cagr_exact (s : List ℚ) (min_years : ℕ) (h1 : 1 ≤ min_years)
    (h2 : min_years + 1 ≤ s.length) (h3 : ∀ x ∈ s, 0 < x) :
    calculate_cagr (tail_n (min_years + 1) s) =
      some (((((tail_n (min_years + 1) s).getLastD 0 : ℚ) : ℝ) /
              (((tail_n (min_years + 1) s).headI : ℚ) : ℝ))
              ^ ((1 : ℝ) / (min_years : ℝ)) - 1) := by
  have hlen : (tail_n (min_years + 1) s).length = min_years + 1 :=
    tail_n_length _ _ h2
  have hpos : ∀ x ∈ tail_n (min_years + 1) s, 0 < x :=
    fun x hx => h3 x (tail_n_subset _ _ hx)
  have hne : tail_n (min_years + 1) s ≠ [] := by
    intro h
    rw [h] at hlen
    simp at hlen
  rw [calculate_cagr, if_neg, hlen]
  · norm_num
  · push_neg
    refine ⟨by omega, ?_, ?_⟩
    · exact ne_of_gt (hpos _ (headI_mem hne))
    · intro x hx
      exact hpos x hx

theorem c2_cagr_exact_witness :
    (1 ≤ 1 ∧ 1 + 1 ≤ ([100, 200] : List ℚ).length ∧
      ∀ x ∈ ([100, 200] : List ℚ), 0 < x) ∧
    calculate_cagr (tail_n 2 [100, 200]) = some 1 := by
  refine ⟨⟨le_refl 1, by norm_num, by decide⟩, ?_⟩
  have h := c2_cagr_exact [100, 200] 1 (le_refl 1) (by norm_num) (by decide)
  rw [h]
  norm_num [tail_n, Real.rpow_one]

/-!  ## C3 -/

/-- C3 (amended): the batch pipeline's `calculate_cagr` returns undefined
for any series with a zero or negative value or fewer than 2 points; the
legacy `compute_metrics` of src/data pipeline/metrics_ingestion.py does
not (see `c3_counterexample`). -/
theorem c3_cagr_undefined_guard (s : List ℚ)
    (h : s.length < 2 ∨ ∃ x ∈ s, x ≤ 0) : calculate_cagr s = none := by
  rw [calculate_cagr, if_pos]
  rcases h with h | h
  · exact Or.inl h
  · exact Or.inr (Or.inr h)

theorem c3_cagr_undefined_guard_witness :
    (([100, -5, 120] : List ℚ).length < 2 ∨
      ∃ x ∈ ([100, -5, 120] : List ℚ), x ≤ 0) ∧
    calculate_cagr [100, -5, 120] = none :=
  ⟨Or.inr ⟨-5, by decide, by decide⟩,
   c3_cagr_undefined_guard _ (Or.inr ⟨-5, by decide, by decide⟩)⟩

/-- C3 (counterexample): `compute_metrics` of
src/data pipeline/metrics_ingestion.py computes a *defined* CAGR for the
revenue series [100, -5, 120] — the claim's own example of a series whose
CAGR must be undefined.  It guards only the series length; the negative
middle value never reaches `last/first = 120/100`. -/
theorem c3_counterexample :
    values (sortByDate (dropna (finC3.locD "Total Revenue"))) = [100, -5, 120] ∧
    compute_metrics_cagr finC3 ≠ none := by
  constructor
  · decide
  · have h : compute_metrics_cagr finC3 =
        some ((((120 : ℚ) : ℝ) / ((100 : ℚ) : ℝ))
          ^ ((1 : ℝ) / ((2 : ℕ) : ℝ)) - 1) := rfl
    rw [h]
    simp

/-!  ## C6 -/

/-- C6: the average margin equals the mean of the date-aligned elementwise
ratios that survive the discarding of non-finite ratios, and is undefined
exactly when no such ratio remains. -/
theorem c6_avg_margin (ni rev : FinSeries) :
    (alignedRatios ni rev = [] → calculate_avg_margin ni rev = none) ∧
    (alignedRatios ni rev ≠ [] →
      calculate_avg_margin ni rev = some (meanQ (alignedRatios ni rev))) := by
  constructor <;> intro h
  · rw [calculate_avg_margin, if_pos]
    rw [h]
    rfl
  · rw [calculate_avg_margin, if_neg]
    simpa [List.length_eq_zero] using h

theorem c6_avg_margin_witness :
    alignedRatios niW revW ≠ [] ∧
    calculate_avg_margin niW revW = some (1/5) := by
  have hal : alignedRatios niW revW = [10/100, 20/100, 30/100] := rfl
  refine ⟨by rw [hal]; simp, ?_⟩
  have h := (c6_avg_margin niW revW).2 (by rw [hal]; simp)
  rw [h, hal]
  norm_num [meanQ]

/-!  ## C7 -/

/-- C7: the average ROCE is the mean over the trailing `min_years` periods
of EBIT divided by capital employed (total assets − current liabilities),
aligned by date with non-finite ratios discarded, and it is undefined
whenever fewer than `min_years` defined EBIT points or fewer than
`min_years` defined capital-employed points exist before alignment. -/
theorem c7_avg_roce (fin bal : Frame) (min_years : ℕ) :
    ((dropna (ebitSeries fin)).length < min_years ∨
        (dropna (ceSeries bal)).length < min_years →
      calculate_avg_roce fin bal min_years = none) ∧
    (bal.hasRow "Total Assets" = true →
      bal.hasRow "Total Current Liabilities" = true →
      ((["EBIT", "Operating Income"].find? (fun n => fin.hasRow n)).isSome = true) →
      min_years ≤ (dropna (ebitSeries fin)).length →
      min_years ≤ (dropna (ceSeries bal)).length →
      roceRatios fin bal min_years ≠ [] →
      calculate_avg_roce fin bal min_years =
        some (meanQ (roceRatios fin bal min_years))) := by
  constructor
  · intro h
    rw [calculate_avg_roce]
    cases hTA : (bal.hasRow "Total Assets" && bal.hasRow "Total Current Liabilities") with
    | false => simp [hTA]
    | true =>
      simp only [hTA, if_true]
      cases hf : List.find? (fun n => fin.hasRow n) ["EBIT", "Operating Income"] with
      | none => rfl
      | some n =>
        have he : sortByDateO (fin.locD n) = ebitSeries fin := by
          rw [ebitSeries, hf]
        have hce : seriesSub (sortByDateO (bal.locD "Total Assets"))
            (sortByDateO (bal.locD "Total Current Liabilities")) = ceSeries bal := rfl
        simp only [he, hce]
        rw [if_pos h]
  · intro hTA hTCL hf hle hlc hne
    obtain ⟨n, hn⟩ := Option.isSome_iff_exists.mp hf
    rw [calculate_avg_roce]
    have hb : (bal.hasRow "Total Assets" && bal.hasRow "Total Current Liabilities") = true := by
      rw [hTA, hTCL]
      rfl
    simp only [hb, if_true, hn]
    have he : sortByDateO (fin.locD n) = ebitSeries fin := by
      rw [ebitSeries, hn]
    have hce : seriesSub (sortByDateO (bal.locD "Total Assets"))
        (sortByDateO (bal.locD "Total Current Liabilities")) = ceSeries bal := rfl
    simp only [he, hce]
    rw [if_neg (by omega)]
    have hroce : (tail_n min_years (dropna (ebitSeries fin))).filterMap (fun p =>
        match lookupDate (dropna (ceSeries bal)) p.1 with
        | some c => if c = 0 then none else some (p.2 / c)
        | none => none) = roceRatios fin bal min_years := rfl
    rw [hroce, if_neg (by simpa [List.length_eq_zero] using hne)]

theorem c7_avg_roce_witness :
    roceRatios finC7 balC7 2 ≠ [] ∧
    calculate_avg_roce finC7 balC7 2 = some (3/20) := by
  have hce : ceSeries balC7 = [(1, some ((110 : ℚ) - 10)), (2, some ((120 : ℚ) - 20))] := rfl
  have hce2 : ceSeries balC7 = [(1, some (100 : ℚ)), (2, some (100 : ℚ))] := by
    rw [hce]
    norm_num
  have hroce : roceRatios finC7 balC7 2 = [10/100, 20/100] := by
    rw [roceRatios, hce2]
    rfl
  have h := (c7_avg_roce finC7 balC7 2).2 rfl rfl rfl (by decide)
    (by rw [hce2]; decide) (by rw [hroce]; simp)
  refine ⟨by rw [hroce]; simp, ?_⟩
  rw [h, hroce]
  norm_num [meanQ]

/-!  ## C10 -/

/-- C10: `extract_financials` always returns a record whose screening keys
are exactly `SCREEN_METRICS` in order, and when the screening-metric block
raises (modelled by `tryScreen _ _ _ = none`) the record still carries the
ticker, the industry label, and every screening metric explicitly set to
`none` — the error is never propagated and no key is missing. -/
theorem c10_exception_record (fin cf : Frame) (industry : Option String)
    (ticker : String) (min_years : ℕ) :
    ((extract_financials fin cf industry ticker min_years).screen.map Prod.fst
        = SCREEN_METRICS) ∧
    (tryScreen fin cf min_years = none →
      extract_financials fin cf industry ticker min_years =
        { ticker := ticker, industry := industry,
          screen := SCREEN_METRICS.map (fun m => (m, none)) }) := by
  constructor
  · rw [extract_financials]
    cases h : tryScreen fin cf min_years with
    | none =>
      simp only [List.map_map]
      exact List.map_id'' (fun _ => rfl) SCREEN_METRICS
    | some l =>
      rw [tryScreen] at h
      split at h
      · injection h with h2
        subst h2
        rfl
      · exact absurd h (by simp)
  · intro h
    rw [extract_financials, h]

theorem c10_exception_record_witness :
    tryScreen [] [] 4 = none ∧
    extract_financials [] [] (some "Ind") "TCK" 4 =
      { ticker := "TCK", industry := some "Ind",
        screen := SCREEN_METRICS.map (fun m => (m, none)) } :=
  ⟨rfl, (c10_exception_record [] [] (some "Ind") "TCK" 4).2 rfl⟩

/-!  ## C5 -/

theorem hasRow_eq_isSome (f : Frame) (n : String) :
    f.hasRow n = (f.loc n).isSome := by
  induction f with
  | nil => rfl
  | cons a t ih =>
    rw [Frame.hasRow, Frame.loc]
    rw [Frame.hasRow, Frame.loc] at ih
    simp only [List.any_cons, List.find?_cons]
    cases h : (a.1 == n) with
    | true => simp [h]
    | false => simpa [h] using ih

theorem epsSeriesOpt_none (fin : Frame)
    (h : fin.loc (epsRowName fin) = none) : epsSeriesOpt fin = none := by
  have hh : fin.hasRow (epsRowName fin) = false := by
    rw [hasRow_eq_isSome, h]
    rfl
  rw [epsSeriesOpt, hh]
  simp

/-- C5 (amended): in the batch extractor each screening ratio is present in
the record with exactly its thresholded value — a CAGR is computed only
from the trailing `min_years + 1` points of a series that long (explicitly
`none` below the threshold or when the source row is absent), and the
average margin only when both series have at least `min_years` points —
while the batch-test extractor variant computes the revenue CAGR from only
`min_years` trailing points. -/
theorem c5_thresholds (fin cf : Frame) (industry : Option String)
    (ticker : String) (min_years : ℕ) (revRaw niRaw : RawSeries)
    (hrev : fin.loc (revRowName fin) = some revRaw)
    (hni : fin.loc "Net Income" = some niRaw) :
    ((extract_financials fin cf industry ticker min_years).screen.lookup
        "revenue_cagr" =
      some (cagrEntry (some (sortByDate (dropna revRaw))) min_years)) ∧
    ((sortByDate (dropna revRaw)).length < min_years + 1 →
      (extract_financials fin cf industry ticker min_years).screen.lookup
        "revenue_cagr" = some none) ∧
    ((extract_financials fin cf industry ticker min_years).screen.lookup
        "net_income_cagr" =
      some (cagrEntry (some (sortByDate (dropna niRaw))) min_years)) ∧
    ((extract_financials fin cf industry ticker min_years).screen.lookup
        "eps_cagr" = some (cagrEntry (epsSeriesOpt fin) min_years)) ∧
    (fin.loc (epsRowName fin) = none →
      (extract_financials fin cf industry ticker min_years).screen.lookup
        "eps_cagr" = some none) ∧
    (min_years ≤ (sortByDate (dropna niRaw)).length →
      min_years ≤ (sortByDate (dropna revRaw)).length →
      (extract_financials fin cf industry ticker min_years).screen.lookup
        "net_profit_margin_avg" =
        some ((calculate_avg_margin (tail_n min_years (sortByDate (dropna niRaw)))
          (tail_n min_years (sortByDate (dropna revRaw)))).map (fun q => (q : ℝ)))) ∧
    ((sortByDate (dropna niRaw)).length < min_years ∨
        (sortByDate (dropna revRaw)).length < min_years →
      (extract_financials fin cf industry ticker min_years).screen.lookup
        "net_profit_margin_avg" = some none) ∧
    ((extract_financials fin cf industry ticker min_years).screen.lookup
        "operating_cashflow_cagr" =
      some (cagrEntry (ocfSeriesOpt cf) min_years)) ∧
    (∀ (fin2 cf2 : Frame),
      min_years ≤ (get_fin_row fin2 ["Total Revenue", "Revenue"]).length →
      (extract_financials_test fin2 cf2 industry ticker min_years).screen.lookup
        "revenue_cagr" =
        some (calculate_cagr (values (tail_n min_years
          (get_fin_row fin2 ["Total Revenue", "Revenue"]))))) := by
  have hs : (extract_financials fin cf industry ticker min_years).screen =
      [("revenue_cagr", cagrEntry (some (sortByDate (dropna revRaw))) min_years),
       ("net_income_cagr", cagrEntry (some (sortByDate (dropna niRaw))) min_years),
       ("eps_cagr", cagrEntry (epsSeriesOpt fin) min_years),
       ("net_profit_margin_avg",
         if min_years ≤ (sortByDate (dropna niRaw)).length ∧
             min_years ≤ (sortByDate (dropna revRaw)).length then
           (calculate_avg_margin (tail_n min_years (sortByDate (dropna niRaw)))
             (tail_n min_years (sortByDate (dropna revRaw)))).map (fun q => (q : ℝ))
         else none),
       ("operating_cashflow_cagr", cagrEntry (ocfSeriesOpt cf) min_years)] := by
    rw [extract_financials, tryScreen, hrev, hni]
  refine ⟨by rw [hs]; rfl, ?_, by rw [hs]; rfl, by rw [hs]; rfl, ?_, ?_, ?_,
    by rw [hs]; rfl, ?_⟩
  · intro h
    rw [hs]
    show some (cagrEntry (some (sortByDate (dropna revRaw))) min_years) = some none
    rw [cagrEntry, if_neg (by omega)]
  · intro h
    rw [hs]
    show some (cagrEntry (epsSeriesOpt fin) min_years) = some none
    rw [epsSeriesOpt_none fin h]
    rfl
  · intro h1 h2
    rw [hs]
    show some (if min_years ≤ (sortByDate (dropna niRaw)).length ∧
        min_years ≤ (sortByDate (dropna revRaw)).length then _ else none) = _
    rw [if_pos ⟨h1, h2⟩]
  · intro h
    rw [hs]
    show some (if min_years ≤ (sortByDate (dropna niRaw)).length ∧
        min_years ≤ (sortByDate (dropna revRaw)).length then _ else none) = some none
    rw [if_neg (by omega)]
  · intro fin2 cf2 h
    have hl : (extract_financials_test fin2 cf2 industry ticker min_years).screen.lookup
        "revenue_cagr" =
        some (if min_years ≤ (get_fin_row fin2 ["Total Revenue", "Revenue"]).length then
          calculate_cagr (values (tail_n min_years
            (get_fin_row fin2 ["Total Revenue", "Revenue"])))
        else none) := rfl
    rw [hl, if_pos h]

theorem c5_thresholds_witness :
    (extract_financials finC5W [] none "T" 4).screen.lookup "revenue_cagr" =
      some none ∧
    (extract_financials finC5W [] none "T" 4).screen.lookup
      "net_profit_margin_avg" = some none ∧
    (extract_financials_test finC5 [] none "T" 4).screen.lookup "revenue_cagr" =
      some (calculate_cagr (values (tail_n 4
        (get_fin_row finC5 ["Total Revenue", "Revenue"])))) := by
  have h := c5_thresholds finC5W [] none "T" 4 [(1, some 1), (2, some 2)]
    [(1, some 1)] rfl rfl
  exact ⟨h.2.1 (by decide), h.2.2.2.2.2.2.1 (Or.inl (by decide)),
    h.2.2.2.2.2.2.2.2 finC5 [] (by decide)⟩

/-- C5 (counterexample): the batch-test extractor variant computes a
revenue CAGR from a series with only `min_years = 4` trailing points —
fewer than the `min_years + 1` points the claim requires for every CAGR:
the resulting entry is a defined value, not `none`. -/
theorem c5_counterexample :
    (get_fin_row finC5 ["Total Revenue", "Revenue"]).length = 4 ∧
    (extract_financials_test finC5 [] none "T" 4).screen.lookup "revenue_cagr"
      ≠ some none := by
  constructor
  · decide
  · have h : (extract_financials_test finC5 [] none "T" 4).screen.lookup
        "revenue_cagr" = some (calculate_cagr [1, 2, 4, 8]) := rfl
    rw [h]
    rw [calculate_cagr, if_neg (by decide)]
    simp

/-!  ## C1 -/

/-- C1 (amended): every cutoff cell emitted by the batch aggregator is the
`pct/100` quantile, with linear interpolation, of the defined values of the
metric within the row's industry partition — exactly the quantile labelled
by the row, with no direction flip — whereas every cell emitted by
gen_cutoffs_table.py is the flipped `1 − p/100` quantile of the values
within its pre-filtered partition. -/
theorem c1_percentile_direction :
    (∀ (t : List MetricsRow), ∀ r ∈ batchCutoffs t, ∀ m : SMetric,
      r.cell m = quantile ((partitionOf t r.industry).filterMap
        (fun x => x.cell m)) (pctq r.percentile)) ∧
    (∀ (t : List MetricsRow), ∀ r ∈ genCutoffs t,
      r.revenue_cagr =
        quantile ((partitionOf (t.filter genKeep) r.industry).filterMap
          (fun x => x.revenue_cagr)) (1 - pctq r.percentile) ∧
      r.net_profit_margin_avg =
        quantile ((partitionOf (t.filter genKeep) r.industry).filterMap
          (fun x => x.net_profit_margin_avg)) (1 - pctq r.percentile)) := by
  constructor
  · intro t r hr m
    simp only [batchCutoffs, List.mem_flatMap, List.mem_map] at hr
    obtain ⟨I, hI, p, hp, rfl⟩ := hr
    cases m <;> rfl
  · intro t r hr
    simp only [genCutoffs, List.mem_flatMap, List.mem_map] at hr
    obtain ⟨I, hI, p, hp, rfl⟩ := hr
    exact ⟨rfl, rfl⟩

/-- C1 (counterexample): on the two-record industry-A table `tC1` (values 0
and 1), the gen_cutoffs_table row labelled percentile 10 carries the cutoff
0.9 — the 90th percentile — while the 10th percentile of the partition's
defined values is 0.1: the emitted cutoff is not the percentile the claim
names, the direction is flipped to 100 − p. -/
theorem c1_counterexample :
    ((genCutoffs tC1).getD 2 default).industry = "A" ∧
    ((genCutoffs tC1).getD 2 default).percentile = 10 ∧
    ((genCutoffs tC1).getD 2 default).revenue_cagr = some (9/10) ∧
    quantile ((partitionOf tC1 "A").filterMap (fun r => r.revenue_cagr))
      (pctq 10) = some (1/10) ∧
    ((genCutoffs tC1).getD 2 default).revenue_cagr ≠
      quantile ((partitionOf tC1 "A").filterMap (fun r => r.revenue_cagr))
        (pctq 10) := by
  have h1 : ((genCutoffs tC1).getD 2 default).revenue_cagr =
      quantile [0, 1] (1 - pctq 10) := rfl
  have h2 : (partitionOf tC1 "A").filterMap (fun r => r.revenue_cagr) = [0, 1] := rfl
  have h3 : quantile [0, 1] (1 - pctq 10) = some (9/10) := by
    norm_num [quantile, quantileSorted, pctq, List.insertionSort, List.orderedInsert]
  have h4 : quantile [0, 1] (pctq 10) = some (1/10) := by
    norm_num [quantile, quantileSorted, pctq, List.insertionSort, List.orderedInsert]
  refine ⟨rfl, rfl, by rw [h1, h3], by rw [h2, h4], ?_⟩
  rw [h1, h3, h2, h4]
  norm_num

theorem c1_percentile_direction_witness :
    batchCutoffRow (partitionOf tEx "Software") "Software" 50 ∈ batchCutoffs tEx ∧
    (batchCutoffRow (partitionOf tEx "Software") "Software" 50).cell
      SMetric.revenue_cagr = some (1/5) := by
  have hmem : batchCutoffRow (partitionOf tEx "Software") "Software" 50 ∈
      batchCutoffs tEx :=
    List.mem_flatMap.mpr ⟨"Software", by decide, List.mem_map.mpr ⟨50, by decide, rfl⟩⟩
  refine ⟨hmem, ?_⟩
  have h := c1_percentile_direction.1 tEx _ hmem SMetric.revenue_cagr
  rw [h]
  show quantile ((partitionOf tEx "Software").filterMap
    (fun x => x.cell SMetric.revenue_cagr)) (pctq 50) = some (1/5)
  have hl : (partitionOf tEx "Software").filterMap
      (fun x => x.cell SMetric.revenue_cagr) = [1/10, 3/10] := rfl
  rw [hl]
  norm_num [quantile, quantileSorted, pctq, List.insertionSort, List.orderedInsert]

/-!  ## C4 -/

/-- C4 (amended): for every industry present in the metrics table and every
configured percentile, the *batch* cutoffs table contains that
(industry, percentile) row, and any metric cell whose partition has zero
defined values is explicitly undefined (`none`), not zero and not omitted.
gen_cutoffs_table.py violates the claim: see `c4_counterexample`. -/
theorem c4_batch_row_present (t : List MetricsRow) (I : String) (p : ℕ)
    (hI : I ∈ industriesOf t) (hp : p ∈ PCT_LIST) :
    batchCutoffRow (partitionOf t I) I p ∈ batchCutoffs t ∧
    ∀ m : SMetric, (partitionOf t I).filterMap (fun r => r.cell m) = [] →
      (batchCutoffRow (partitionOf t I) I p).cell m = none := by
  constructor
  · exact List.mem_flatMap.mpr ⟨I, hI, List.mem_map.mpr ⟨p, hp, rfl⟩⟩
  · intro m hm
    rw [batchCutoffRow_cell, hm, quantile_nil]

theorem c4_batch_row_present_witness :
    batchCutoffRow (partitionOf tC4 "A") "A" 5 ∈ batchCutoffs tC4 ∧
    (batchCutoffRow (partitionOf tC4 "A") "A" 5).cell SMetric.revenue_cagr
      = none := by
  have h := c4_batch_row_present tC4 "A" 5 (by decide) (by decide)
  exact ⟨h.1, h.2 SMetric.revenue_cagr rfl⟩

/-- C4 (counterexample): the table `tC4` has industry "A" (one record, with
an undefined revenue CAGR and so an empty defined partition for that
metric), yet gen_cutoffs_table.py emits *no* cutoff row at all: its
up-front `dropna` discards every record that misses any screened metric, so
the (industry, percentile) rows the claim requires are absent. -/
theorem c4_counterexample :
    tC4.map (fun r => r.industry) = [some "A"] ∧
    (partitionOf tC4 "A").filterMap (fun r => r.cell SMetric.revenue_cagr)
      = [] ∧
    genCutoffs tC4 = [] :=
  ⟨rfl, rfl, rfl⟩

/-!  ## C8 -/

theorem filter_flatMap_proj {β : Type} (proj : β → String) (L : List String)
    (f : String → List β) (hnd : L.Nodup)
    (hf : ∀ J, ∀ r ∈ f J, proj r = J) (I : String) :
    (L.flatMap f).filter (fun r => proj r == I) = if I ∈ L then f I else [] := by
  induction L with
  | nil => simp
  | cons J L ih =>
    have hndL : L.Nodup := hnd.of_cons
    rw [List.flatMap_cons, List.filter_append, ih hndL]
    by_cases hJI : J = I
    · subst hJI
      have hJnot : J ∉ L := (List.nodup_cons.mp hnd).1
      rw [if_neg hJnot, if_pos (List.mem_cons_self J L), List.append_nil]
      exact List.filter_eq_self.mpr (fun r hr => by
        simp [hf J r hr])
    · have hz : (f J).filter (fun r => proj r == I) = [] := by
        rw [List.filter_eq_nil_iff]
        intro r hr
        simp [hf J r hr, hJI]
      rw [hz, List.nil_append]
      by_cases hI : I ∈ L
      · rw [if_pos hI, if_pos (List.mem_cons_of_mem J hI)]
      · rw [if_neg hI, if_neg ?_]
        intro hmem
        rcases List.mem_cons.mp hmem with h | h
        · exact hJI h.symm
        · exact hI h

theorem batch_filter_industry (t : List MetricsRow) (I : String) :
    (batchCutoffs t).filter (fun r => r.industry == I) =
      if I ∈ industriesOf t then
        PCT_LIST.map (fun p => batchCutoffRow (partitionOf t I) I p)
      else [] := by
  rw [batchCutoffs]
  exact filter_flatMap_proj BCutoffRow.industry (industriesOf t) _
    (List.nodup_dedup _)
    (fun J r hr => by
      obtain ⟨p, hp, rfl⟩ := List.mem_map.mp hr
      rfl) I

theorem gen_filter_industry (t : List MetricsRow) (I : String) :
    (genCutoffs t).filter (fun r => r.industry == I) =
      if I ∈ industriesOf (t.filter genKeep) then
        GEN_PERCENTILES.map
          (fun p => genCutoffRow (partitionOf (t.filter genKeep) I) I p)
      else [] := by
  rw [genCutoffs]
  exact filter_flatMap_proj GCutoffRow.industry (industriesOf (t.filter genKeep)) _
    (List.nodup_dedup _)
    (fun J r hr => by
      obtain ⟨p, hp, rfl⟩ := List.mem_map.mp hr
      rfl) I

theorem mem_industriesOf_iff_partition (t : List MetricsRow) (I : String) :
    I ∈ industriesOf t ↔ partitionOf t I ≠ [] := by
  rw [mem_industriesOf, Ne, partitionOf, List.filter_eq_nil_iff]
  constructor
  · rintro ⟨r, hr, h⟩ hall
    exact absurd (by simp [h] : (r.industry == some I) = true)
      (by simpa using hall r hr)
  · intro h
    by_contra hno
    push_neg at hno
    exact h (fun r hr => by simpa using hno r hr)

theorem partition_filter_comm (t : List MetricsRow) (I : String) :
    partitionOf (t.filter genKeep) I = (partitionOf t I).filter genKeep := by
  rw [partitionOf, partitionOf, List.filter_filter, List.filter_filter]
  exact List.filter_congr (fun r _ => Bool.and_comm _ _)

/-- C8: both aggregators are industry-isolated: two metrics tables that
agree on the records of industry `I` produce identical industry-`I` cutoff
rows, whatever the records of every other industry hold. -/
theorem c8_industry_isolated (t1 t2 : List MetricsRow) (I : String)
    (h : partitionOf t1 I = partitionOf t2 I) :
    (batchCutoffs t1).filter (fun r => r.industry == I) =
      (batchCutoffs t2).filter (fun r => r.industry == I) ∧
    (genCutoffs t1).filter (fun r => r.industry == I) =
      (genCutoffs t2).filter (fun r => r.industry == I) := by
  have hmem : (I ∈ industriesOf t1) ↔ (I ∈ industriesOf t2) := by
    rw [mem_industriesOf_iff_partition, mem_industriesOf_iff_partition, h]
  have hg : partitionOf (t1.filter genKeep) I = partitionOf (t2.filter genKeep) I := by
    rw [partition_filter_comm, partition_filter_comm, h]
  have hmemg : (I ∈ industriesOf (t1.filter genKeep)) ↔
      (I ∈ industriesOf (t2.filter genKeep)) := by
    rw [mem_industriesOf_iff_partition, mem_industriesOf_iff_partition, hg]
  constructor
  · rw [batch_filter_industry, batch_filter_industry, h]
    by_cases hI : I ∈ industriesOf t1
    · rw [if_pos hI, if_pos (hmem.mp hI)]
    · rw [if_neg hI, if_neg (fun hh => hI (hmem.mpr hh))]
  · rw [gen_filter_industry, gen_filter_industry, hg]
    by_cases hI : I ∈ industriesOf (t1.filter genKeep)
    · rw [if_pos hI, if_pos (hmemg.mp hI)]
    · rw [if_neg hI, if_neg (fun hh => hI (hmemg.mpr hh))]

theorem c8_industry_isolated_witness :
    partitionOf t1C8 "Software" = partitionOf t2C8 "Software" ∧
    (batchCutoffs t1C8).filter (fun r => r.industry == "Software") =
      (batchCutoffs t2C8).filter (fun r => r.industry == "Software") ∧
    (genCutoffs t1C8).filter (fun r => r.industry == "Software") =
      (genCutoffs t2C8).filter (fun r => r.industry == "Software") := by
  have h := c8_industry_isolated t1C8 t2C8 "Software" rfl
  exact ⟨rfl, h.1, h.2⟩

/-!  ## C9 -/

theorem passGE_iff (v c : Option ℚ) :
    passGE v c = true ↔ ∃ a b, v = some a ∧ c = some b ∧ b ≤ a := by
  cases v <;> cases c <;> simp [passGE]

theorem inRange_iff (mc : Option ℚ) (lo hi : ℚ) :
    inRange mc lo hi = true ↔ ∃ x, mc = some x ∧ lo ≤ x ∧ x ≤ hi := by
  cases mc <;> simp [inRange]

theorem industrySel_iff (r : AppRow) (inds : List String) :
    (match r.industry with
      | some i => inds.contains i
      | none => false) = true ↔ ∃ i, r.industry = some i ∧ i ∈ inds := by
  cases h : r.industry <;> simp

theorem bnot_or_iff (u b : Bool) : (!u || b) = true ↔ (u = true → b = true) := by
  cases u <;> simp

/-- C9: a metrics row survives `filter_stocks` exactly when it belongs to a
selected industry, its market cap lies in range, and, for each selected
metric, its metric value is defined and ≥ the joined cutoff value for its
industry at the chosen percentile; in particular a row whose metric value
is undefined (`none`) never passes a selected metric filter. -/
theorem c9_filter_pass (df : List AppRow) (cutoffs : List BCutoffRow)
    (industries : List String) (use_rev_cagr use_npm : Bool)
    (rev_cagr_p npm_p : ℕ) (lo hi : ℚ) (r : AppRow) :
    r ∈ filter_stocks df cutoffs industries use_rev_cagr rev_cagr_p
        use_npm npm_p lo hi ↔
      r ∈ df ∧
      (∃ i, r.industry = some i ∧ i ∈ industries) ∧
      (use_rev_cagr = true → ∃ v c, r.revenue_cagr = some v ∧
        get_cutoff cutoffs r.industry SMetric.revenue_cagr rev_cagr_p = some c ∧
        c ≤ v) ∧
      (use_npm = true → ∃ v c, r.net_profit_margin_avg = some v ∧
        get_cutoff cutoffs r.industry SMetric.net_profit_margin_avg npm_p = some c ∧
        c ≤ v) ∧
      (∃ x, r.market_cap = some x ∧ lo ≤ x ∧ x ≤ hi) := by
  rw [filter_stocks]
  simp only [List.mem_filter, Bool.and_eq_true, bnot_or_iff, passGE_iff,
    inRange_iff, industrySel_iff]
  constructor
  · rintro ⟨⟨⟨hdf, hind⟩, hrev, hnpm⟩, hmc⟩
    exact ⟨hdf, hind, hrev, hnpm, hmc⟩
  · rintro ⟨hdf, hind, hrev, hnpm, hmc⟩
    exact ⟨⟨⟨hdf, hind⟩, hrev, hnpm⟩, hmc⟩

theorem c9_filter_pass_witness :
    rowC9 ∈ filter_stocks [rowC9, rowC9U] cutC9 ["A"] true 5 true 5 0 1000 ∧
    rowC9U ∉ filter_stocks [rowC9, rowC9U] cutC9 ["A"] true 5 true 5 0 1000 := by
  constructor
  · refine (c9_filter_pass _ _ _ _ _ _ _ _ _ _).mpr
      ⟨by simp, ⟨"A", rfl, by simp⟩, ?_, ?_, ⟨500, rfl, by norm_num, by norm_num⟩⟩
    · intro _
      exact ⟨3/10, 1/10, rfl, rfl, by norm_num⟩
    · intro _
      exact ⟨1/5, 1/10, rfl, rfl, by norm_num⟩
  · intro hmem
    obtain ⟨v, c, hv, _⟩ := ((c9_filter_pass _ _ _ _ _ _ _ _ _ _).mp hmem).2.2.1 rfl
    exact Option.noConfusion (show (none : Option ℚ) = some v from hv)

end Screener
